import Mathlib

/-!
# Verification of the VerbaOS intent-classification engine

A shallow embedding, in Lean 4, of the core of the VerbaOS backend
(`Backend/app/services/intent_embeddings.py`, `intent_logic.py`,
`azure_ml.py` and the pending-embedding queue of `Backend/app/routes/audio.py`),
together with theorems settling the frozen specification claims.

Modelling conventions:
* Python floats are idealised as exact numbers: `ℚ` wherever the code only
  adds, multiplies, divides and compares (store, centroids, text matcher,
  combiner, decision procedure), and `ℝ` where a square root occurs
  (`np.linalg.norm` inside `cosine_similarity`, hence the whole embedding
  classifier score pipeline).
* The module-level dicts `_intent_db` / `_intent_centroids` are modelled as a
  `Store` of total functions from `String`.  In every reachable state the key
  set of both dicts is exactly `INTENTS` (they are initialised by
  comprehension over `INTENTS`, `_load_db` only assigns keys from `INTENTS`,
  and the mutators guard on membership), so iteration over `.items()` is
  modelled as iteration over the `INTENTS` list, and the membership test
  `intent in _intent_db` of `clear_intent` as `intent ∈ INTENTS`.
* Persistence (`_save_db`) and logging are I/O with no effect on the
  in-memory state and are dropped.
* Python's stable `list.sort` / `sorted` are modelled by Mathlib's (stable)
  `List.insertionSort`.
* `re.search` on the fixed `FUZZY_PATTERNS` table is modelled by a small
  fuel-indexed backtracking matcher over an inductive regex type covering
  exactly the constructs those patterns use (literals, alternation, `\s*`,
  `+`, `.`, `\b`, `^`, `$`).
-/

namespace VerbaOS

set_option maxRecDepth 100000
set_option allowUnsafeReducibility true

attribute [local semireducible] Rat.ofScientific Rat.mul Rat.add Rat.sub Rat.inv

/-! ## `intent_embeddings.py`: fixed intent set and parameters -/

/-- `INTENTS` (intent_embeddings.py): the fixed ten-label intent set. -/
def INTENTS : List String :=
  ["HELP", "WATER", "YES", "NO", "PAIN", "EMERGENCY", "BATHROOM", "TIRED", "COLD", "HOT"]

/-- `MIN_SAMPLES_FOR_PREDICTION = 2`. -/
def MIN_SAMPLES_FOR_PREDICTION : ℕ := 2

/-- `K_NEIGHBORS = 5`. -/
def K_NEIGHBORS : ℕ := 5

/-- `SIMILARITY_MARGIN = 0.05`. -/
def SIMILARITY_MARGIN : ℝ := 0.05

/-- An embedding is a list of (idealised) reals, kept rational so the store
is executable; the code never constrains the dimension in the store. -/
abbrev Emb := List ℚ

/-- The module state of `intent_embeddings.py`: `_intent_db` (samples per
intent) and `_intent_centroids` (cached centroid per intent). -/
structure Store where
  db : String → List Emb
  centroids : String → Option Emb

/-- The state right after module initialisation (empty db, no centroids). -/
def initStore : Store := ⟨fun _ => [], fun _ => none⟩

/-- `np.mean(np.array(samples), axis=0)`: element-wise mean of a non-empty
list of equal-length vectors (column sums over the transpose, divided by the
number of rows). -/
def npMean (samples : List Emb) : Emb :=
  samples.transpose.map (fun col => col.sum / (samples.length : ℚ))

/-- `_recompute_centroids()`: for every intent (the keys of `_intent_db` are
exactly `INTENTS`), cache the mean of its samples if it has at least
`MIN_SAMPLES_FOR_PREDICTION` of them, else `None`. -/
def recomputeCentroids (db : String → List Emb) (old : String → Option Emb) :
    String → Option Emb :=
  fun i =>
    if i ∈ INTENTS then
      if MIN_SAMPLES_FOR_PREDICTION ≤ (db i).length then some (npMean (db i)) else none
    else old i

/-- `add_embedding(intent, embedding)`: guard the closed intent set, append,
recompute centroids; returns the new state and the `bool` result. -/
def addEmbedding (st : Store) (intent : String) (e : Emb) : Store × Bool :=
  if intent ∈ INTENTS then
    let db' := fun j => if j = intent then st.db j ++ [e] else st.db j
    (⟨db', recomputeCentroids db' st.centroids⟩, true)
  else (st, false)

/-- `add_embeddings_batch(intent, embeddings)`: guard, extend, recompute;
returns the new state and the number of embeddings added. -/
def addEmbeddingsBatch (st : Store) (intent : String) (es : List Emb) : Store × ℕ :=
  if intent ∈ INTENTS then
    let db' := fun j => if j = intent then st.db j ++ es else st.db j
    (⟨db', recomputeCentroids db' st.centroids⟩, es.length)
  else (st, 0)

/-- `clear_intent(intent)`: if the intent is a key of `_intent_db` (i.e. in
`INTENTS`), empty its sample list.  Note the source does NOT call
`_recompute_centroids()` here: the centroid cache is left untouched. -/
def clearIntent (st : Store) (intent : String) : Store × Bool :=
  if intent ∈ INTENTS then
    (⟨fun j => if j = intent then [] else st.db j, st.centroids⟩, true)
  else (st, false)

/-- `get_db_stats()`: sample count per intent (as a function; the Python dict
has exactly the keys `INTENTS`). -/
def getDbStats (st : Store) : String → ℕ := fun i => (st.db i).length

/-! ## `intent_embeddings.py`: cosine similarity and the embedding classifier -/

/-- `np.dot` of two vectors (over ℝ). -/
noncomputable def vdot (a b : Emb) : ℝ :=
  ((a.zip b).map (fun p => (p.1 : ℝ) * (p.2 : ℝ))).sum

/-- `np.linalg.norm`: the Euclidean norm, `sqrt` of the sum of squares. -/
noncomputable def vnorm (a : Emb) : ℝ :=
  Real.sqrt ((a.map (fun x : ℚ => (x : ℝ) ^ 2)).sum)

/-- `cosine_similarity(a, b)`: returns `0.0` when either norm is zero,
otherwise the dot product divided by the product of the norms. -/
noncomputable def cosineSimilarity (a b : Emb) : ℝ :=
  if vnorm a = 0 ∨ vnorm b = 0 then 0 else vdot a b / (vnorm a * vnorm b)

/-- Descending order on reals, as the sort relation of `list.sort(reverse=True)`. -/
def descR (a b : ℝ) : Prop := b ≤ a

noncomputable instance : DecidableRel descR := fun a b => Real.decidableLE b a

instance : IsTotal ℝ descR := ⟨fun a b => (le_total a b).symm⟩

instance : IsTrans ℝ descR := ⟨fun _ _ _ h1 h2 => le_trans h2 h1⟩

/-- `_get_top_k_similarities(embedding, samples, k)`: all cosine similarities
against the samples, sorted descending (stably), truncated to `k`. -/
noncomputable def getTopKSimilarities (e : Emb) (samples : List Emb) (k : ℕ) : List ℝ :=
  if samples = [] then []
  else (List.insertionSort descR (samples.map (fun s => cosineSimilarity e s))).take k

/-- `_weighted_knn_score(top_k_sims)`: similarity-weighted average with the
squared similarities as weights; `0.0` on an empty list or zero total weight. -/
noncomputable def weightedKnnScore (sims : List ℝ) : ℝ :=
  if sims = [] then 0
  else
    let weights := sims.map (fun s => s ^ 2)
    let total := weights.sum
    if total = 0 then 0
    else (((sims.zip weights).map (fun p => p.1 * p.2)).sum) / total

/-- `_calibrate_confidence(raw_score, margin, num_samples)`: 20% penalty for a
margin below `SIMILARITY_MARGIN`, then 15% (fewer than 5 samples) or 5%
(fewer than 10) penalty, clamped into `[0, 1]`. -/
noncomputable def calibrateConfidence (rawScore margin : ℝ) (numSamples : ℕ) : ℝ :=
  let c1 := if margin < SIMILARITY_MARGIN then rawScore * 0.8 else rawScore
  let c2 :=
    if numSamples < 5 then c1 * 0.85
    else if numSamples < 10 then c1 * 0.95
    else c1
  max 0 (min 1 c2)

/-- Python's `max(top_k) if top_k else 0.0`. -/
noncomputable def maxOrZero (sims : List ℝ) : ℝ := (sims.max?).getD 0

/-- The per-intent `combined_score` of `predict_intent`: intents with fewer
than `MIN_SAMPLES_FOR_PREDICTION` samples are skipped; for the rest the score
is `0.3 * centroid_score + 0.5 * knn_score + 0.2 * max_score`, with the
centroid score read from the (possibly stale) cache. -/
noncomputable def intentScores (st : Store) (e : Emb) : List (String × ℝ) :=
  (INTENTS.filter (fun i => MIN_SAMPLES_FOR_PREDICTION ≤ (st.db i).length)).map
    (fun i =>
      let centroidScore : ℝ :=
        match st.centroids i with
        | none => 0
        | some c => cosineSimilarity e c
      let topK := getTopKSimilarities e (st.db i) K_NEIGHBORS
      let knnScore := weightedKnnScore topK
      let maxScore := maxOrZero topK
      (i, 0.3 * centroidScore + 0.5 * knnScore + 0.2 * maxScore))

/-- Descending order on scored intents (`sorted(..., key=lambda x: x[1],
reverse=True)`). -/
def descScore (a b : String × ℝ) : Prop := b.2 ≤ a.2

noncomputable instance : DecidableRel descScore := fun a b => Real.decidableLE b.2 a.2

instance : IsTotal (String × ℝ) descScore := ⟨fun a b => (le_total a.2 b.2).symm⟩

instance : IsTrans (String × ℝ) descScore := ⟨fun _ _ _ h1 h2 => le_trans h2 h1⟩

/-- The `sorted_intents` list of `predict_intent`. -/
noncomputable def rankedScores (st : Store) (e : Emb) : List (String × ℝ) :=
  List.insertionSort descScore (intentScores st e)

/-- `sorted_intents[1][1] if len(sorted_intents) > 1 else 0.0`, applied to the
tail of the ranking. -/
noncomputable def secondScoreOf : List (String × ℝ) → ℝ
  | [] => 0
  | (_, s) :: _ => s

/-- `predict_intent(embedding)`: `("UNKNOWN", 0.0, INTENTS[:3])` when no intent
qualifies (the `if not scores` branch, equivalently an empty ranking),
otherwise the top-scored intent with calibrated confidence and the next up to
three ranked intents as alternatives (`sorted_intents[1:4]`). -/
noncomputable def predictIntent (st : Store) (e : Emb) : String × ℝ × List String :=
  match rankedScores st e with
  | [] => ("UNKNOWN", 0, INTENTS.take 3)
  | (bestIntent, bestScore) :: rest =>
    let margin := bestScore - secondScoreOf rest
    let numSamples := (st.db bestIntent).length
    let confidence := calibrateConfidence bestScore margin numSamples
    (bestIntent, confidence, (rest.take 3).map Prod.fst)

/-! ## `intent_logic.py`: phonetic encoding and vocabularies -/

/-- `UI_OPTIONS`: the static per-intent UI button table. -/
def UI_OPTIONS : List (String × List String) :=
  [("HELP", ["Confirm Help", "Cancel"]),
   ("EMERGENCY", ["Cancel Emergency"]),
   ("WATER", ["Confirm Water", "Cancel"]),
   ("YES", ["OK"]),
   ("NO", ["OK"]),
   ("PAIN", ["Confirm Pain", "Where?", "Cancel"]),
   ("BATHROOM", ["Confirm Bathroom", "Cancel"]),
   ("TIRED", ["Confirm Rest", "Cancel"]),
   ("COLD", ["Confirm Cold", "Cancel"]),
   ("HOT", ["Confirm Hot", "Cancel"]),
   ("UNKNOWN", ["Repeat", "Cancel"])]

/-- Python `str.lower()` (over the character list, so that it reduces in the
kernel; the cascade only ever sees basic latin text). -/
def toLowerStr (s : String) : String := ⟨s.data.map Char.toLower⟩

/-- Python `str.strip()`: drop leading and trailing whitespace. -/
def trimStr (s : String) : String :=
  ⟨((s.data.dropWhile Char.isWhitespace).reverse.dropWhile Char.isWhitespace).reverse⟩

/-- The consonant-class map of `_aphasia_soundex` (`encoding.get(char, '0')`). -/
def encChar (c : Char) : Char :=
  if c = 'b' ∨ c = 'f' ∨ c = 'p' ∨ c = 'v' then '1'
  else if c = 'c' ∨ c = 'g' ∨ c = 'j' ∨ c = 'k' ∨ c = 'q' ∨ c = 's' ∨ c = 'x' ∨ c = 'z' then '2'
  else if c = 'd' ∨ c = 't' ∨ c = 'n' then '3'
  else if c = 'l' then '4'
  else if c = 'm' then '5'
  else if c = 'r' then '6'
  else if c = 'w' ∨ c = 'h' then '7'
  else if c = 'y' then '8'
  else '0'

/-- The encoding loop of `_aphasia_soundex`: append the class digit when it is
neither `'0'` nor equal to the previous character's class. -/
def soundexLoop (prev : Char) : List Char → List Char
  | [] => []
  | c :: rest =>
    let curr := encChar c
    if curr ≠ '0' ∧ curr ≠ prev then curr :: soundexLoop curr rest
    else soundexLoop curr rest

/-- Pad with `'0'` on the right, or truncate, to length 4
(`code[:4].ljust(4, '0')`). -/
def padTo4 (code : List Char) : List Char :=
  code.take 4 ++ List.replicate (4 - (code.take 4).length) '0'

/-- `_aphasia_soundex(word)`: empty word encodes to the empty string; otherwise
keep the first letter verbatim and encode the rest, then pad/truncate to 4. -/
def aphasiaSoundex (word : String) : List Char :=
  match (trimStr (toLowerStr word)).data with
  | [] => []
  | first :: rest => padTo4 (first :: soundexLoop (encChar first) rest)

/-- `_phonetic_distance(word1, word2)`: 1.0 on identical codes, else the
fraction of positionally matching characters among the zipped codes. -/
def phoneticDistance (w1 w2 : String) : ℚ :=
  let c1 := aphasiaSoundex w1
  let c2 := aphasiaSoundex w2
  if c1 = c2 then 1
  else (((c1.zip c2).countP (fun p => p.1 = p.2)) : ℚ) / 4

/-- `INTENT_PHONETIC_MAP`, in dict-insertion order:
`(intent, canonical, aphasia_variants)`. -/
def INTENT_PHONETIC_MAP : List (String × List String × List String) :=
  [("HELP",
    ["help", "help me", "need help", "assist", "please"],
    ["hep", "elp", "hel", "he", "ep", "hup", "halp", "hulp", "hehp", "hehlp",
     "pwease", "pease", "pees"]),
   ("WATER",
    ["water", "thirsty", "drink", "want water"],
    ["wawa", "wa-wa", "wata", "wah", "waw", "thir", "thirs", "dink", "dwink",
     "wotter", "wader", "wodder"]),
   ("YES",
    ["yes", "yeah", "yep", "okay", "ok", "sure"],
    ["ya", "ye", "yah", "yeh", "uh huh", "mmhmm", "yesh", "yeth", "kay", "ohay"]),
   ("NO",
    ["no", "nope", "stop", "don\x27t", "wait"],
    ["na", "nah", "nuh", "uh uh", "mm mm", "noh", "naw", "doh", "top", "sop"]),
   ("PAIN",
    ["pain", "hurt", "hurts", "ow", "ouch", "sore"],
    ["pane", "pai", "pah", "pa", "hut", "huh", "oww", "ouw", "ah", "aah", "sor", "soah"]),
   ("EMERGENCY",
    ["emergency", "urgent", "help now", "doctor", "nurse"],
    ["emergee", "emerguh", "mergency", "urgen", "doct", "docta", "nurs", "nurss",
     "quick", "quik", "now", "nao"]),
   ("BATHROOM",
    ["bathroom", "toilet", "potty", "pee", "restroom"],
    ["bathoom", "bafroom", "baffoom", "toile", "toileh", "pott", "pee pee", "wee", "weewee"]),
   ("TIRED",
    ["tired", "sleepy", "sleep", "rest", "exhausted"],
    ["tire", "tir", "seepy", "seep", "res", "napnap"]),
   ("COLD",
    ["cold", "freezing", "chilly", "blanket"],
    ["col", "coh", "cowd", "freez", "blankie", "bwanket"]),
   ("HOT",
    ["hot", "warm", "sweating", "fan"],
    ["hah", "hoh", "wam", "sweat", "fahn"])]

/-- `INTENT_KEYWORDS`, in dict-insertion order (`word, intent`). -/
def INTENT_KEYWORDS : List (String × String) :=
  [("help", "HELP"), ("please", "HELP"), ("need", "HELP"), ("assist", "HELP"),
   ("assistance", "HELP"), ("helpme", "HELP"), ("help me", "HELP"), ("i need", "HELP"),
   ("call", "HELP"), ("someone", "HELP"), ("nurse", "HELP"), ("doctor", "HELP"),
   ("emergency", "EMERGENCY"), ("urgent", "EMERGENCY"), ("danger", "EMERGENCY"),
   ("fall", "EMERGENCY"), ("fallen", "EMERGENCY"), ("fell", "EMERGENCY"),
   ("chest", "EMERGENCY"), ("breathe", "EMERGENCY"), ("cant breathe", "EMERGENCY"),
   ("can\x27t breathe", "EMERGENCY"), ("dying", "EMERGENCY"), ("severe", "EMERGENCY"),
   ("water", "WATER"), ("thirsty", "WATER"), ("drink", "WATER"), ("thirst", "WATER"),
   ("beverage", "WATER"), ("juice", "WATER"), ("tea", "WATER"), ("coffee", "WATER"),
   ("yes", "YES"), ("yeah", "YES"), ("yep", "YES"), ("yup", "YES"), ("okay", "YES"),
   ("ok", "YES"), ("sure", "YES"), ("correct", "YES"), ("right", "YES"),
   ("affirmative", "YES"),
   ("no", "NO"), ("nope", "NO"), ("nah", "NO"), ("cancel", "NO"), ("stop", "NO"),
   ("dont", "NO"), ("don\x27t", "NO"), ("negative", "NO"),
   ("care", "HELP"), ("caregiver", "HELP"),
   ("pain", "PAIN"), ("hurt", "PAIN"), ("hurts", "PAIN"), ("hurting", "PAIN"),
   ("ache", "PAIN"), ("sore", "PAIN"), ("ouch", "PAIN"), ("ow", "PAIN"),
   ("bathroom", "BATHROOM"), ("toilet", "BATHROOM"), ("potty", "BATHROOM"),
   ("pee", "BATHROOM"), ("restroom", "BATHROOM"),
   ("tired", "TIRED"), ("sleepy", "TIRED"), ("sleep", "TIRED"), ("rest", "TIRED"),
   ("nap", "TIRED"), ("exhausted", "TIRED"), ("bed", "TIRED"),
   ("cold", "COLD"), ("freezing", "COLD"), ("chilly", "COLD"), ("blanket", "COLD"),
   ("hot", "HOT"), ("warm", "HOT"), ("sweating", "HOT"), ("sweaty", "HOT"),
   ("fan", "HOT")]

/-! ## A small regex engine for the `FUZZY_PATTERNS` table

`re.search(pattern, text, re.IGNORECASE)` is used by stage 4 of
`detect_intent_from_transcription` on text that has already been
lower-cased; the fixed patterns only use literals, alternation, `\s*`,
`+`, `.`, `\b`, `^` and `$`, which the following matcher covers. -/

/-- Regular expressions as used by `FUZZY_PATTERNS`. -/
inductive Rx where
  | eps : Rx
  | ch : Char → Rx
  | wsp : Rx
  | dot : Rx
  | seq : Rx → Rx → Rx
  | alt : Rx → Rx → Rx
  | star : Rx → Rx
  | wb : Rx
  | bol : Rx
  | eol : Rx

/-- A literal string as a regex. -/
def strL (s : String) : Rx := s.data.foldr (fun c r => Rx.seq (Rx.ch c) r) Rx.eps

/-- `r+` as `r r*`. -/
def Rx.plus (r : Rx) : Rx := Rx.seq r (Rx.star r)

/-- `(a|b|...|z)` over a non-empty list (an unmatchable `⊥`-like regex,
`star`-free `bol seq eol seq dot`, is irrelevant: the table never passes
an empty list). -/
def altsOf : List Rx → Rx
  | [] => Rx.seq Rx.bol (Rx.seq Rx.eol Rx.dot)
  | [r] => r
  | r :: rest => Rx.alt r (altsOf rest)

/-- `\b(w1|w2|...)\b` over literal words. -/
def wAlt (ws : List String) : Rx :=
  Rx.seq Rx.wb (Rx.seq (altsOf (ws.map strL)) Rx.wb)

/-- `^(w1|w2|...)$` over literal words. -/
def anchoredAlt (ws : List String) : Rx :=
  Rx.seq Rx.bol (Rx.seq (altsOf (ws.map strL)) Rx.eol)

/-- `a\s*b` over literals. -/
def gap (a b : String) : Rx := Rx.seq (strL a) (Rx.seq (Rx.star Rx.wsp) (strL b))

/-- Python `\w` (ASCII range, which is all the cascade ever sees). -/
def isWordChar (c : Char) : Bool := c.isAlpha || c.isDigit || c = '_'

/-- Word-character test across an optional boundary character. -/
def wordOpt : Option Char → Bool
  | none => false
  | some c => isWordChar c

/-- Number of constructors of a regex (to bound the matcher's fuel). -/
def Rx.size : Rx → ℕ
  | .eps => 1
  | .ch _ => 1
  | .wsp => 1
  | .dot => 1
  | .seq a b => a.size + b.size + 1
  | .alt a b => a.size + b.size + 1
  | .star a => a.size + 1
  | .wb => 1
  | .bol => 1
  | .eol => 1

/-- Fuel-indexed backtracking matcher in continuation style.  `prev` is the
character just before the current position (`none` at the start of the
string); the continuation receives the updated `prev` and the rest of the
input.  The guard on `star` stops empty-progress iterations; the fuel
strictly exceeds any possible backtracking depth for the sizes used here. -/
def rxMatch : ℕ → Rx → Option Char → List Char → (Option Char → List Char → Bool) → Bool
  | 0, _, _, _, _ => false
  | fuel + 1, r, prev, s, k =>
    match r with
    | .eps => k prev s
    | .ch c =>
      match s with
      | [] => false
      | x :: rest => decide (x = c) && k (some x) rest
    | .wsp =>
      match s with
      | [] => false
      | x :: rest => x.isWhitespace && k (some x) rest
    | .dot =>
      match s with
      | [] => false
      | x :: rest => decide (x ≠ '\n') && k (some x) rest
    | .seq a b => rxMatch fuel a prev s (fun p2 s2 => rxMatch fuel b p2 s2 k)
    | .alt a b => rxMatch fuel a prev s k || rxMatch fuel b prev s k
    | .star a =>
      k prev s ||
        rxMatch fuel a prev s (fun p2 s2 =>
          decide (s2.length < s.length) && rxMatch fuel (.star a) p2 s2 k)
    | .wb => (wordOpt prev != wordOpt s.head?) && k prev s
    | .bol => (prev == none) && k prev s
    | .eol => s.isEmpty && k prev s

/-- Try a match at the current position and at every later one
(`re.search` semantics). -/
def rxSearchAux (r : Rx) : Option Char → List Char → Bool
  | prev, s =>
    rxMatch ((Rx.size r + 2) * (s.length + 2) + 2) r prev s (fun _ _ => true) ||
      match s with
      | [] => false
      | c :: cs => rxSearchAux r (some c) cs

/-- `re.search(pattern, text)` as a boolean. -/
def rxSearch (r : Rx) (text : String) : Bool := rxSearchAux r none text.data

/-- `FUZZY_PATTERNS`, in list order: `(regex, intent, confidence)`. -/
def FUZZY_PATTERNS : List (Rx × String × ℚ) :=
  [(wAlt ["alpe", "ulpe", "elpe", "alp", "ulp", "elp"], "HELP", 0.70),
   (Rx.seq Rx.wb (Rx.seq (altsOf [gap "i" "pe", gap "il" "pe", gap "you" "pe", gap "yo" "pe"]) Rx.wb),
    "HELP", 0.65),
   (Rx.seq (wAlt ["pe"]) (Rx.seq (Rx.star Rx.dot) (Rx.seq (wAlt ["pe"]) (Rx.seq (Rx.star Rx.dot) (wAlt ["pe"])))),
    "HELP", 0.60),
   (wAlt ["help", "elp", "halp", "hep"], "HELP", 0.85),
   (wAlt ["care"], "HELP", 0.80),
   (wAlt ["water", "wata", "wate", "wat", "wawa"], "WATER", 0.80),
   (wAlt ["thirsty", "thirst", "thirs"], "WATER", 0.75),
   (wAlt ["emergency", "emergenc", "emergen", "mergency"], "EMERGENCY", 0.85),
   (wAlt ["urgent", "urgen"], "EMERGENCY", 0.80),
   (wAlt ["pain", "pane", "pai", "pah"], "PAIN", 0.75),
   (wAlt ["hurt", "hurts", "hort", "hut"], "PAIN", 0.75),
   (Rx.seq Rx.wb (Rx.seq (altsOf [Rx.seq (Rx.ch 'o') (Rx.plus (Rx.ch 'w')), strL "ouch", Rx.seq (Rx.ch 'a') (Rx.plus (Rx.ch 'h'))]) Rx.wb),
    "PAIN", 0.65),
   (anchoredAlt ["yes", "yeah", "yep", "yup", "ya"], "YES", 0.85),
   (wAlt ["yes", "yeah"], "YES", 0.75),
   (anchoredAlt ["ok", "okay", "kay"], "YES", 0.80),
   (Rx.seq Rx.wb (Rx.seq (altsOf [gap "uh" "huh", gap "mm" "hmm"]) Rx.wb), "YES", 0.70),
   (anchoredAlt ["no", "nope", "nah"], "NO", 0.85),
   (wAlt ["no", "nope"], "NO", 0.75),
   (Rx.seq Rx.wb (Rx.seq (altsOf [gap "uh" "uh", gap "mm" "mm"]) Rx.wb), "NO", 0.70),
   (wAlt ["bathroom", "bathoom", "bafroom"], "BATHROOM", 0.80),
   (wAlt ["toilet", "toile"], "BATHROOM", 0.80),
   (wAlt ["potty", "pott", "pee", "wee"], "BATHROOM", 0.75),
   (wAlt ["tired", "tire", "tir"], "TIRED", 0.80),
   (wAlt ["sleep", "sleepy", "seep"], "TIRED", 0.75),
   (wAlt ["cold", "col", "coh", "cowd"], "COLD", 0.80),
   (wAlt ["blanket", "blankie"], "COLD", 0.75),
   (wAlt ["hot", "hah", "hoh"], "HOT", 0.80),
   (wAlt ["warm", "wam"], "HOT", 0.75)]

/-! ## `intent_logic.py`: the five-stage cascade -/

/-- Accumulating splitter for `text.split()` (whitespace runs, no empties). -/
def splitWordsAux : List Char → List Char → List String
  | [], acc => if acc = [] then [] else [⟨acc.reverse⟩]
  | c :: rest, acc =>
    if c.isWhitespace then
      if acc = [] then splitWordsAux rest []
      else ⟨acc.reverse⟩ :: splitWordsAux rest []
    else splitWordsAux rest (c :: acc)

/-- `text.split()`: split on whitespace runs, dropping empty pieces. -/
def splitWords (text : String) : List String := splitWordsAux text.data []

/-- One vocabulary pass of `_phonetic_intent_match`: fold the best
`(intent, score)` over a word list, scores scaled by `mult` (1 for canonical
words, 0.9 for aphasia variants), updating only on a strict improvement. -/
def pimFold (w : String) (intent : String) (mult : ℚ) :
    List String → Option String × ℚ → Option String × ℚ
  | [], acc => acc
  | v :: rest, (bi, bs) =>
    let score := phoneticDistance w v * mult
    if bs < score then pimFold w intent mult rest (some intent, score)
    else pimFold w intent mult rest (bi, bs)

/-- The intent loop of `_phonetic_intent_match`: exact equality with a
canonical word returns `(intent, 0.95)` and with a variant `(intent, 0.85)`
(the Python early `return`s, which discard the running best), otherwise the
running best is threaded on.  Equality anywhere in a list short-circuits
before any later score update, so testing membership first is equivalent. -/
def pimGo (w : String) :
    List (String × List String × List String) → Option String × ℚ → Option String × ℚ
  | [], acc => acc
  | (intent, canon, vars) :: rest, acc =>
    if w ∈ canon then (some intent, 0.95)
    else
      let acc1 := pimFold w intent 1 canon acc
      if w ∈ vars then (some intent, 0.85)
      else pimGo w rest (pimFold w intent (9 / 10) vars acc1)

/-- `_phonetic_intent_match(word)` (`best_intent` may remain `None`). -/
def phoneticIntentMatch (w : String) : Option String × ℚ :=
  pimGo w INTENT_PHONETIC_MAP (none, 0)

/-- Stage 1: the first word that is a key of `INTENT_KEYWORDS`. -/
def stage1Result (words : List String) : Option String :=
  words.findSome? (fun w => INTENT_KEYWORDS.lookup w)

/-- Stage 2 candidates: per word, a phonetic hit `(intent, score, word)` when
an intent was assigned and the score reaches the 0.6 threshold. -/
def stage2Candidates (words : List String) : List (String × ℚ × String) :=
  words.filterMap (fun w =>
    match phoneticIntentMatch w with
    | (some i, s) => if (0.6 : ℚ) ≤ s then some (i, s, w) else none
    | (none, _) => none)

/-- Descending order on stage-2 candidates (`sort(key=lambda x: x[1],
reverse=True)`). -/
def descCand (a b : String × ℚ × String) : Prop := b.2.1 ≤ a.2.1

instance : DecidableRel descCand := fun a b => inferInstanceAs (Decidable (b.2.1 ≤ a.2.1))

/-- Stage 2: the best-scored candidate, if any. -/
def stage2Result (words : List String) : Option (String × ℚ) :=
  match List.insertionSort descCand (stage2Candidates words) with
  | [] => none
  | (i, s, _) :: _ => some (i, s)

/-- Does `p` start `t`? -/
def startsHere (p t : List Char) : Bool :=
  match p, t with
  | [], _ => true
  | _ :: _, [] => false
  | c :: ps, d :: ts => c = d && startsHere ps ts

/-- Does `p` occur contiguously inside `t` (Python's `keyword in text`)? -/
def occursIn (p : List Char) : List Char → Bool
  | [] => startsHere p []
  | c :: ts => startsHere p (c :: ts) || occursIn p ts

/-- Stage 3: the first keyword (in dict order) occurring as a substring of the
full text, at confidence 0.70. -/
def stage3Result (text : String) : Option (String × ℚ) :=
  INTENT_KEYWORDS.findSome?
    (fun kv => if occursIn kv.1.data text.data then some (kv.2, (0.7 : ℚ)) else none)

/-- Stage 4: the first fuzzy regex (in list order) found in the text. -/
def stage4Result (text : String) : Option (String × ℚ) :=
  FUZZY_PATTERNS.findSome?
    (fun r => if rxSearch r.1 text then some (r.2.1, r.2.2) else none)

/-- The `short_words` of stage 5 (words of at most 3 characters). -/
def shortWords (words : List String) : List String :=
  words.filter (fun w => w.length ≤ 3)

/-- Stage 5 (repetition heuristic) trigger: at least two words, at least half
of them short, at least two short ones, and the number of short words AFTER
the first whose phonetic code equals the first short word's code is at least
40% of the short-word count. -/
def stage5Hit (words : List String) : Bool :=
  if 2 ≤ words.length then
    let sw := shortWords words
    if (words.length : ℚ) * 0.5 ≤ (sw.length : ℚ) then
      if 2 ≤ sw.length then
        match sw with
        | [] => false
        | w0 :: rest =>
          decide ((sw.length : ℚ) * 0.4 ≤
            ((rest.countP (fun w => decide (aphasiaSoundex w = aphasiaSoundex w0))) : ℚ))
      else false
    else false
  else false

/-- `detect_intent_from_transcription(transcription)`: empty input is
`("UNKNOWN", 0.0)`; otherwise lower/strip/split and run the cascade, stage 5
yielding `("HELP", 0.50)` and the fallback `("UNKNOWN", 0.3)`. -/
def detectIntent (transcription : String) : String × ℚ :=
  if transcription = "" then ("UNKNOWN", 0)
  else
    let text := trimStr (toLowerStr transcription)
    let words := splitWords text
    match stage1Result words with
    | some i => (i, 0.9)
    | none =>
      match stage2Result words with
      | some (i, s) => (i, s)
      | none =>
        match stage3Result text with
        | some r => r
        | none =>
          match stage4Result text with
          | some r => r
          | none => if stage5Hit words then ("HELP", 0.5) else ("UNKNOWN", 0.3)

/-! ## `intent_logic.py`: decision procedure -/

/-- `settings.CONFIDENCE_CONFIRMED` (config.py). -/
def CONFIDENCE_CONFIRMED : ℚ := 0.75

/-- `settings.CONFIDENCE_NEEDS_CONFIRMATION` (config.py). -/
def CONFIDENCE_NEEDS_CONFIRMATION : ℚ := 0.4

/-- `determine_status_and_action(intent, confidence)`. -/
def determineStatusAndAction (intent : String) (confidence : ℚ) : String × String :=
  if intent = "EMERGENCY" ∧ (0.8 : ℚ) < confidence then ("auto_triggered", "trigger_alert")
  else if CONFIDENCE_CONFIRMED ≤ confidence then
    if intent = "YES" ∨ intent = "NO" then ("confirmed", "resolve_confirmation")
    else ("confirmed", "await_user_confirmation")
  else if CONFIDENCE_NEEDS_CONFIRMATION ≤ confidence then
    ("needs_confirmation", "show_options")
  else ("uncertain", "ask_repeat")

/-- `get_ui_options(intent, status)`: status `uncertain` always answers the
`UNKNOWN` entry; otherwise the intent's table entry with an
`["OK", "Cancel"]` default. -/
def getUiOptions (intent status : String) : List String :=
  if status = "uncertain" then (UI_OPTIONS.lookup "UNKNOWN").getD ["Repeat", "Cancel"]
  else (UI_OPTIONS.lookup intent).getD ["OK", "Cancel"]

/-! ## `azure_ml.py`: modality combiner -/

/-- `_combine_predictions(...)`: agreement boosts the 60/40-weighted blend by
1.15 (clamped at 1); disagreement keeps the side with the larger weighted
score (ties to HuBERT) at 0.85 times its own raw confidence. -/
def combinePredictions (hubertIntent : String) (hubertConfidence : ℚ)
    (wav2vecIntent : String) (wav2vecConfidence : ℚ) : String × ℚ :=
  if hubertIntent = wav2vecIntent then
    (hubertIntent, min 1 ((hubertConfidence * 0.6 + wav2vecConfidence * 0.4) * 1.15))
  else
    let hubertScore := hubertConfidence * 0.6
    let wav2vecScore := wav2vecConfidence * 0.4
    if wav2vecScore ≤ hubertScore then (hubertIntent, hubertConfidence * 0.85)
    else (wav2vecIntent, wav2vecConfidence * 0.85)

/-- The final combination step of `_process_hybrid_response` (lines 285-296):
a single `UNKNOWN` side defers to the other side unchanged, two `UNKNOWN`
sides give `("UNKNOWN", 0.0)`, and two known sides go through
`_combine_predictions`. -/
def hybridCombine (hubertIntent : String) (hubertConfidence : ℚ)
    (wav2vecIntent : String) (wav2vecConfidence : ℚ) : String × ℚ :=
  if hubertIntent = "UNKNOWN" ∧ wav2vecIntent ≠ "UNKNOWN" then
    (wav2vecIntent, wav2vecConfidence)
  else if wav2vecIntent = "UNKNOWN" ∧ hubertIntent ≠ "UNKNOWN" then
    (hubertIntent, hubertConfidence)
  else if hubertIntent = "UNKNOWN" ∧ wav2vecIntent = "UNKNOWN" then
    ("UNKNOWN", 0)
  else combinePredictions hubertIntent hubertConfidence wav2vecIntent wav2vecConfidence

/-! ## `routes/audio.py`: the pending-embedding queue

`_pending_embeddings` is an insertion-ordered Python dict, modelled as an
association list (newest last). -/

/-- Python dict assignment `_pending_embeddings[tok] = e`: update in place if
the key exists (position preserved), else append at the end. -/
def dictInsert (q : List (String × Emb)) (tok : String) (e : Emb) : List (String × Emb) :=
  if tok ∈ q.map Prod.fst then
    q.map (fun p => if p.1 = tok then (tok, e) else p)
  else q ++ [(tok, e)]

/-- The insertion done by `process_audio`: store the embedding under the fresh
token, then, if the dict exceeds 100 entries, delete the first (oldest) key. -/
def pendingInsert (q : List (String × Emb)) (tok : String) (e : Emb) : List (String × Emb) :=
  let q2 := dictInsert q tok e
  if 100 < q2.length then q2.drop 1 else q2

/-- The consume step of `confirm_intent` / `submit_feedback`: a missing token
answers `none` (the HTTP 404 "embedding expired or not found" path), a present
one is `pop`ped, returning the embedding and the shrunken dict. -/
def pendingConsume (q : List (String × Emb)) (tok : String) :
    Option (Emb × List (String × Emb)) :=
  match q.lookup tok with
  | none => none
  | some e => some (e, q.eraseP (fun p => p.1 == tok))

/-- A 100-entry pending dict with keys `"0"`..`"99"` (a test fixture). -/
def q100 : List (String × Emb) := (List.range 100).map (fun n => (Nat.repr n, []))

/-! ## Theorems for the specification claims -/

/-- C3: `determine_status_and_action` realises the threshold table —
`auto_triggered`/`trigger_alert` for EMERGENCY above 0.8; otherwise
`confirmed` with `resolve_confirmation` for YES/NO and
`await_user_confirmation` for all other intents at confidence ≥ 0.75;
`needs_confirmation`/`show_options` on `[0.4, 0.75)`; `uncertain`/`ask_repeat`
below 0.4 — and `get_ui_options` answers the fixed `UNKNOWN` pair
`["Repeat", "Cancel"]` for status `uncertain` whatever the intent. -/
theorem determine_status_and_action_spec (intent : String) (conf : ℚ) :
    (intent = "EMERGENCY" → 0.8 < conf →
      determineStatusAndAction intent conf = ("auto_triggered", "trigger_alert")) ∧
    (¬(intent = "EMERGENCY" ∧ 0.8 < conf) → 0.75 ≤ conf →
      (intent = "YES" ∨ intent = "NO") →
      determineStatusAndAction intent conf = ("confirmed", "resolve_confirmation")) ∧
    (¬(intent = "EMERGENCY" ∧ 0.8 < conf) → 0.75 ≤ conf →
      ¬(intent = "YES" ∨ intent = "NO") →
      determineStatusAndAction intent conf = ("confirmed", "await_user_confirmation")) ∧
    (0.4 ≤ conf → conf < 0.75 →
      determineStatusAndAction intent conf = ("needs_confirmation", "show_options")) ∧
    (conf < 0.4 →
      determineStatusAndAction intent conf = ("uncertain", "ask_repeat")) ∧
    (getUiOptions intent "uncertain" = ["Repeat", "Cancel"]) := by
  unfold determineStatusAndAction getUiOptions CONFIDENCE_CONFIRMED CONFIDENCE_NEEDS_CONFIRMATION
  refine ⟨?_, ?_, ?_, ?_, ?_, ?_⟩
  · intro he hc; rw [if_pos ⟨he, hc⟩]
  · intro hne hc hyn
    rw [if_neg hne, if_pos hc, if_pos hyn]
  · intro hne hc hyn
    rw [if_neg hne, if_pos hc, if_neg hyn]
  · intro h4 h75
    have hne : ¬(intent = "EMERGENCY" ∧ (0.8 : ℚ) < conf) := by
      rintro ⟨-, hc⟩; exact absurd (lt_trans (by norm_num) hc) (not_lt.2 h75.le)
    rw [if_neg hne, if_neg (not_le.2 h75), if_pos h4]
  · intro hc
    have hne : ¬(intent = "EMERGENCY" ∧ (0.8 : ℚ) < conf) := by
      rintro ⟨-, hc2⟩; exact absurd (lt_trans (by norm_num) hc2) (not_lt.2 hc.le)
    rw [if_neg hne, if_neg (not_le.2 (lt_trans hc (by norm_num))),
      if_neg (not_le.2 hc)]
  · rfl

/-- C3 witness: the decision table at the spec's four sample points, and the
`uncertain` UI override for an intent (WATER) with its own table entry. -/
theorem determine_status_and_action_spec_witness :
    determineStatusAndAction "EMERGENCY" 0.81 = ("auto_triggered", "trigger_alert") ∧
    determineStatusAndAction "YES" 0.76 = ("confirmed", "resolve_confirmation") ∧
    determineStatusAndAction "HELP" 0.8 = ("confirmed", "await_user_confirmation") ∧
    determineStatusAndAction "HELP" 0.5 = ("needs_confirmation", "show_options") ∧
    determineStatusAndAction "WATER" 0.2 = ("uncertain", "ask_repeat") ∧
    getUiOptions "WATER" "uncertain" = ["Repeat", "Cancel"] :=
  ⟨(determine_status_and_action_spec "EMERGENCY" 0.81).1 rfl (by norm_num),
   (determine_status_and_action_spec "YES" 0.76).2.1 (by simp) (by norm_num) (Or.inl rfl),
   (determine_status_and_action_spec "HELP" 0.8).2.2.1 (by simp) (by norm_num) (by simp),
   (determine_status_and_action_spec "HELP" 0.5).2.2.2.1 (by norm_num) (by norm_num),
   (determine_status_and_action_spec "WATER" 0.2).2.2.2.2.1 (by norm_num),
   (determine_status_and_action_spec "WATER" 0).2.2.2.2.2⟩

/-- C4: the hybrid combiner — a single `UNKNOWN` side yields the known side
unchanged; two `UNKNOWN` sides yield `("UNKNOWN", 0.0)`; agreement of two
known sides yields that intent at `min 1 ((0.6·confE + 0.4·confT) · 1.15)`;
disagreement yields the side with the strictly larger weighted score
(`0.6·confE` vs `0.4·confT`) at its own raw confidence times 0.85. -/
theorem hybrid_combine_spec (hI : String) (hC : ℚ) (wI : String) (wC : ℚ) :
    (hI = "UNKNOWN" → wI ≠ "UNKNOWN" → hybridCombine hI hC wI wC = (wI, wC)) ∧
    (wI = "UNKNOWN" → hI ≠ "UNKNOWN" → hybridCombine hI hC wI wC = (hI, hC)) ∧
    (hI = "UNKNOWN" → wI = "UNKNOWN" → hybridCombine hI hC wI wC = ("UNKNOWN", 0)) ∧
    (hI ≠ "UNKNOWN" → wI ≠ "UNKNOWN" → hI = wI →
      hybridCombine hI hC wI wC = (hI, min 1 ((0.6 * hC + 0.4 * wC) * 1.15))) ∧
    (hI ≠ "UNKNOWN" → wI ≠ "UNKNOWN" → hI ≠ wI → 0.4 * wC < 0.6 * hC →
      hybridCombine hI hC wI wC = (hI, hC * 0.85)) ∧
    (hI ≠ "UNKNOWN" → wI ≠ "UNKNOWN" → hI ≠ wI → 0.6 * hC < 0.4 * wC →
      hybridCombine hI hC wI wC = (wI, wC * 0.85)) := by
  unfold hybridCombine combinePredictions
  refine ⟨?_, ?_, ?_, ?_, ?_, ?_⟩
  · intro h1 h2; rw [if_pos ⟨h1, h2⟩]
  · intro h1 h2
    rw [if_neg (by rintro ⟨h, -⟩; exact h2 h), if_pos ⟨h1, h2⟩]
  · intro h1 h2; rw [if_neg (by rintro ⟨-, h⟩; exact h h2), if_neg (by rintro ⟨-, h⟩; exact h h1),
      if_pos ⟨h1, h2⟩]
  · intro h1 h2 heq
    rw [if_neg (by rintro ⟨h, -⟩; exact h1 h), if_neg (by rintro ⟨h, -⟩; exact h2 h),
      if_neg (by rintro ⟨h, -⟩; exact h1 h), if_pos heq]
    ring_nf
  · intro h1 h2 hne hlt
    rw [if_neg (by rintro ⟨h, -⟩; exact h1 h), if_neg (by rintro ⟨h, -⟩; exact h2 h),
      if_neg (by rintro ⟨h, -⟩; exact h1 h), if_neg hne,
      if_pos (by rw [mul_comm wC 0.4, mul_comm hC 0.6]; exact hlt.le)]
  · intro h1 h2 hne hlt
    rw [if_neg (by rintro ⟨h, -⟩; exact h1 h), if_neg (by rintro ⟨h, -⟩; exact h2 h),
      if_neg (by rintro ⟨h, -⟩; exact h1 h), if_neg hne,
      if_neg (by rw [mul_comm wC 0.4, mul_comm hC 0.6]; exact not_le.2 hlt)]

/-- C4 witness: the spec's worked agreement example
(conf_E = 0.9, conf_T = 0.8, same intent → 0.989), a disagreement decided for
the embedding side, one decided for the text side, and the two UNKNOWN
deferral cases. -/
theorem hybrid_combine_spec_witness :
    hybridCombine "HELP" 0.9 "HELP" 0.8 = ("HELP", 0.989) ∧
    hybridCombine "HELP" 0.9 "WATER" 0.8 = ("HELP", 0.765) ∧
    hybridCombine "HELP" 0.1 "WATER" 0.8 = ("WATER", 0.68) ∧
    hybridCombine "UNKNOWN" 0 "WATER" 0.3 = ("WATER", 0.3) ∧
    hybridCombine "HELP" 0.9 "UNKNOWN" 0.3 = ("HELP", 0.9) ∧
    hybridCombine "UNKNOWN" 0 "UNKNOWN" 0.3 = ("UNKNOWN", 0) := by
  refine ⟨?_, ?_, ?_, ?_, ?_, ?_⟩
  · rw [(hybrid_combine_spec "HELP" 0.9 "HELP" 0.8).2.2.2.1 (by simp) (by simp) rfl]
    norm_num
  · rw [(hybrid_combine_spec "HELP" 0.9 "WATER" 0.8).2.2.2.2.1 (by simp) (by simp) (by simp)
      (by norm_num)]
    norm_num
  · rw [(hybrid_combine_spec "HELP" 0.1 "WATER" 0.8).2.2.2.2.2 (by simp) (by simp) (by simp)
      (by norm_num)]
    norm_num
  · exact (hybrid_combine_spec "UNKNOWN" 0 "WATER" 0.3).1 rfl (by simp)
  · exact (hybrid_combine_spec "HELP" 0.9 "UNKNOWN" 0.3).2.1 rfl (by simp)
  · exact (hybrid_combine_spec "UNKNOWN" 0 "UNKNOWN" 0.3).2.2.1 rfl rfl

/-- C5: the fixed input/output pairs of `detect_intent_from_transcription`:
`"help"` hits the exact-keyword stage at `(HELP, 0.90)`; `"wawa wawa"` hits
the phonetic stage as WATER with confidence ≥ 0.6 (in fact 0.85); the empty
string short-circuits to `(UNKNOWN, 0.0)`; and `"philosophy quandary"`, which
no stage matches, falls through to `(UNKNOWN, 0.3)`. -/
theorem detect_intent_fixed_pairs :
    detectIntent "help" = ("HELP", 0.9) ∧
    (detectIntent "wawa wawa").1 = "WATER" ∧
    (0.6 : ℚ) ≤ (detectIntent "wawa wawa").2 ∧
    detectIntent "" = ("UNKNOWN", 0) ∧
    detectIntent "philosophy quandary" = ("UNKNOWN", 0.3) := by
  refine ⟨by decide, by decide, by decide, by decide, by decide⟩

/-- C6 counterexample: the single word `"jyb"` satisfies every condition of
the claim — non-empty, no hit in stages 1-4, all (hence at least half) of its
words are ≤ 3 characters, and 100% (hence at least 40%) of the short words
share the first short word's phonetic code — yet the code returns
`("UNKNOWN", 0.3)`, not `("HELP", 0.50)`: stage 5 is guarded by
`len(words) >= 2` (and by `len(short_words) >= 2`), so a single-word
transcription can never trigger the repetition heuristic. -/
theorem repetition_heuristic_counterexample :
    (("jyb" : String) ≠ "" ∧
      splitWords (trimStr (toLowerStr "jyb")) = ["jyb"] ∧
      stage1Result ["jyb"] = none ∧
      stage2Result ["jyb"] = none ∧
      stage3Result "jyb" = none ∧
      stage4Result "jyb" = none ∧
      shortWords ["jyb"] = ["jyb"] ∧
      ((["jyb"] : List String).length : ℚ) * 0.5 ≤ ((shortWords ["jyb"]).length : ℚ) ∧
      ((shortWords ["jyb"]).length : ℚ) * 0.4 ≤
        ((shortWords ["jyb"]).countP
          (fun w => decide (aphasiaSoundex w = aphasiaSoundex "jyb")) : ℚ)) ∧
    detectIntent "jyb" = ("UNKNOWN", 0.3) ∧ detectIntent "jyb" ≠ ("HELP", 0.5) := by
  refine ⟨⟨by decide, by decide, by decide, by decide, by decide, by decide, by decide,
    by decide, by decide⟩, by decide, by decide⟩

/-- C6 (amended): for every transcription on which stages 1-4 produce no
match, if the transcription has AT LEAST TWO words, at least half of them are
short (≤ 3 characters), there are at least two short words, and the number of
short words AFTER the first one sharing the first short word's phonetic code
is at least 40% of the short-word count, then
`detect_intent_from_transcription` returns `(HELP, 0.50)`.  (A single-word
transcription never triggers the heuristic and falls through to
`(UNKNOWN, 0.3)`.) -/
theorem repetition_heuristic_amended (t : String)
    (h0 : t ≠ "")
    (h1 : stage1Result (splitWords (trimStr (toLowerStr t))) = none)
    (h2 : stage2Result (splitWords (trimStr (toLowerStr t))) = none)
    (h3 : stage3Result (trimStr (toLowerStr t)) = none)
    (h4 : stage4Result (trimStr (toLowerStr t)) = none)
    (hw : 2 ≤ (splitWords (trimStr (toLowerStr t))).length)
    (hhalf : ((splitWords (trimStr (toLowerStr t))).length : ℚ) * 0.5 ≤
      ((shortWords (splitWords (trimStr (toLowerStr t)))).length : ℚ))
    (hsw : 2 ≤ (shortWords (splitWords (trimStr (toLowerStr t)))).length)
    (hshare : ((shortWords (splitWords (trimStr (toLowerStr t)))).length : ℚ) * 0.4 ≤
      (((shortWords (splitWords (trimStr (toLowerStr t)))).drop 1).countP
        (fun w => decide (aphasiaSoundex w =
          aphasiaSoundex (shortWords (splitWords (trimStr (toLowerStr t)))).headI)) : ℚ)) :
    detectIntent t = ("HELP", 0.5) := by
  have h5 : stage5Hit (splitWords (trimStr (toLowerStr t))) = true := by
    unfold stage5Hit
    rw [if_pos hw]
    simp only
    rw [if_pos hhalf, if_pos hsw]
    rcases hne : shortWords (splitWords (trimStr (toLowerStr t))) with - | ⟨w0, rest⟩
    · rw [hne] at hsw; simp at hsw
    · rw [hne] at hshare
      simp only [List.headI, List.drop] at hshare
      simpa using hshare
  unfold detectIntent
  rw [if_neg h0]
  simp only [h1, h2, h3, h4, h5, if_true]

/-- C6 witness for the amended claim: `"jyb jyb"` misses stages 1-4, both of
its words are short and share one phonetic code, and the code returns
`(HELP, 0.50)`. -/
theorem repetition_heuristic_amended_witness :
    detectIntent "jyb jyb" = ("HELP", 0.5) :=
  repetition_heuristic_amended "jyb jyb" (by decide) (by decide) (by decide) (by decide)
    (by decide) (by decide) (by decide) (by decide) (by decide)

/-- A token absent from the key list is not found by `lookup`. -/
theorem lookup_eq_none_of_not_mem (tok : String) :
    ∀ q : List (String × Emb), tok ∉ q.map Prod.fst → List.lookup tok q = none := by
  intro q
  induction q with
  | nil => intro _; rfl
  | cons kv rest ih =>
    intro h
    simp only [List.map_cons, List.mem_cons, not_or] at h
    have hb : (tok == kv.1) = false := beq_eq_false_iff_ne.mpr h.1
    simp only [List.lookup, hb]
    exact ih h.2

/-- After erasing a token's entry from a dict with distinct keys, the token is
no longer found. -/
theorem lookup_eraseP_self (tok : String) :
    ∀ q : List (String × Emb), (q.map Prod.fst).Nodup →
      List.lookup tok (q.eraseP (fun p => p.1 == tok)) = none := by
  intro q
  induction q with
  | nil => intro _; rfl
  | cons kv rest ih =>
    intro h
    simp only [List.map_cons, List.nodup_cons] at h
    by_cases hk : kv.1 = tok
    · rw [List.eraseP_cons_of_pos (by simpa using hk)]
      exact lookup_eq_none_of_not_mem tok rest (hk ▸ h.1)
    · rw [List.eraseP_cons_of_neg (by simpa using hk)]
      have hb : (tok == kv.1) = false := beq_eq_false_iff_ne.mpr (fun hh => hk hh.symm)
      simp only [List.lookup, hb]
      exact ih h.2

/-- C7: the `PendingEmbedding` dict — insertion keeps at most 100 entries
(eviction of exactly the oldest entry and nothing else when a fresh 101st
token arrives), and a consumed token is gone, so a second consume attempt
returns `none` (the 404 `embedding_not_found` / `PendingTokenExpired` path)
rather than succeeding. -/
theorem pending_queue_spec (q : List (String × Emb)) (tok : String) (e : Emb) :
    (q.length ≤ 100 → (pendingInsert q tok e).length ≤ 100) ∧
    (q.length = 100 → tok ∉ q.map Prod.fst →
      pendingInsert q tok e = q.drop 1 ++ [(tok, e)]) ∧
    (∀ emb q2, (q.map Prod.fst).Nodup → pendingConsume q tok = some (emb, q2) →
      pendingConsume q2 tok = none) := by
  refine ⟨?_, ?_, ?_⟩
  · intro hlen
    unfold pendingInsert dictInsert
    by_cases hmem : tok ∈ q.map Prod.fst
    · rw [if_pos hmem]
      have hlen2 : (q.map (fun p => if p.1 = tok then (tok, e) else p)).length = q.length :=
        List.length_map _ _
      rw [if_neg (by omega)]
      omega
    · rw [if_neg hmem]
      have hlen2 : (q ++ [(tok, e)]).length = q.length + 1 := by simp
      by_cases h100 : 100 < (q ++ [(tok, e)]).length
      · rw [if_pos h100]
        have : ((q ++ [(tok, e)]).drop 1).length = q.length + 1 - 1 := by
          rw [List.length_drop, hlen2]
        omega
      · rw [if_neg h100]; omega
  · intro hlen hfresh
    unfold pendingInsert dictInsert
    rw [if_neg hfresh]
    rw [if_pos (by simp [hlen])]
    rw [List.drop_append_of_le_length (by omega)]
  · intro emb q2 hnd hc
    unfold pendingConsume at hc ⊢
    cases hl : List.lookup tok q with
    | none => rw [hl] at hc; exact absurd hc (by simp)
    | some e2 =>
      rw [hl] at hc
      simp only [Option.some.injEq, Prod.mk.injEq] at hc
      rw [← hc.2]
      rw [lookup_eraseP_self tok q hnd]

/-- C7 witness: inserting the fresh token `"x"` into the full 100-entry dict
keeps the size at 100 and evicts exactly the oldest entry `("0", [])`; and in
a two-entry dict, consuming token `"a"` removes it, so the second consume
returns `none`. -/
theorem pending_queue_spec_witness :
    (pendingInsert q100 "x" []).length ≤ 100 ∧
    pendingInsert q100 "x" [] = q100.drop 1 ++ [("x", [])] ∧
    pendingConsume [("b", ([] : Emb))] "a" = none :=
  ⟨(pending_queue_spec q100 "x" []).1 (by decide),
   (pending_queue_spec q100 "x" []).2.1 (by decide) (by decide),
   (pending_queue_spec [("a", []), ("b", [])] "a" []).2.2 [] [("b", [])]
     (by decide) (by decide)⟩

/-- C8: for a label outside the fixed intent set, all three write operations
fail (`False` / `0` / `False`) and return the store completely unchanged — no
new intent key, no modified sample list, no modified centroid. -/
theorem invalid_intent_rejected (st : Store) (label : String) (e : Emb) (es : List Emb)
    (h : label ∉ INTENTS) :
    addEmbedding st label e = (st, false) ∧
    addEmbeddingsBatch st label es = (st, 0) ∧
    clearIntent st label = (st, false) := by
  unfold addEmbedding addEmbeddingsBatch clearIntent
  rw [if_neg h, if_neg h, if_neg h]
  exact ⟨rfl, rfl, rfl⟩

/-- C8 witness: the unknown label `"FOO"` is rejected by all three operations
on the initial store. -/
theorem invalid_intent_rejected_witness :
    addEmbedding initStore "FOO" [1] = (initStore, false) ∧
    addEmbeddingsBatch initStore "FOO" [[1], [2]] = (initStore, 0) ∧
    clearIntent initStore "FOO" = (initStore, false) :=
  invalid_intent_rejected initStore "FOO" [1] [[1], [2]] (by decide)

/-- C9: for a valid intent, `add_embedding` increases that intent's
`stats()` count by exactly 1 and `add_embeddings_batch` by exactly the batch
size (which is also its return value), while every other intent's count is
untouched by either operation. -/
theorem stats_increment (st : Store) (intent : String) (e : Emb) (es : List Emb)
    (h : intent ∈ INTENTS) :
    getDbStats (addEmbedding st intent e).1 intent = getDbStats st intent + 1 ∧
    (∀ j, j ≠ intent → getDbStats (addEmbedding st intent e).1 j = getDbStats st j) ∧
    (addEmbedding st intent e).2 = true ∧
    getDbStats (addEmbeddingsBatch st intent es).1 intent = getDbStats st intent + es.length ∧
    (∀ j, j ≠ intent → getDbStats (addEmbeddingsBatch st intent es).1 j = getDbStats st j) ∧
    (addEmbeddingsBatch st intent es).2 = es.length := by
  unfold addEmbedding addEmbeddingsBatch getDbStats
  rw [if_pos h, if_pos h]
  exact ⟨by simp, fun j hj => by simp [hj], rfl, by simp, fun j hj => by simp [hj], rfl⟩

/-- C9 witness: on the empty store, one `HELP` insert gives count 1, leaves
`WATER` at 0, and a 2-batch gives count 2 with return value 2. -/
theorem stats_increment_witness :
    getDbStats (addEmbedding initStore "HELP" [1]).1 "HELP" = getDbStats initStore "HELP" + 1 ∧
    getDbStats (addEmbedding initStore "HELP" [1]).1 "WATER" = getDbStats initStore "WATER" ∧
    getDbStats (addEmbeddingsBatch initStore "HELP" [[1], [2]]).1 "HELP" =
      getDbStats initStore "HELP" + 2 ∧
    (addEmbeddingsBatch initStore "HELP" [[1], [2]]).2 = 2 :=
  have hs := stats_increment initStore "HELP" [1] [[1], [2]] (by decide)
  ⟨hs.1, hs.2.1 "WATER" (by decide), hs.2.2.2.1, hs.2.2.2.2.2⟩

/-- C1 (the divergence, evaluated): add the sample `[1]` to `HELP` twice —
after the first insert the centroid is absent (1 < 2 samples), after the
second it is the exact mean `[1]` — then `clear_intent("HELP")`.  The sample
list empties, but because `clear_intent` never calls `_recompute_centroids`,
the cached centroid REMAINS `[1]` instead of becoming absent: the centroid is
stale relative to the now-empty sample set. -/
theorem clear_intent_stale_centroid :
    ((addEmbedding initStore "HELP" [1]).1.centroids "HELP" = none) ∧
    ((addEmbedding (addEmbedding initStore "HELP" [1]).1 "HELP" [1]).1.centroids "HELP"
      = some [1]) ∧
    ((clearIntent (addEmbedding (addEmbedding initStore "HELP" [1]).1 "HELP" [1]).1
        "HELP").1.db "HELP" = []) ∧
    ((clearIntent (addEmbedding (addEmbedding initStore "HELP" [1]).1 "HELP" [1]).1
        "HELP").1.centroids "HELP" = some [1]) := by
  refine ⟨by decide, by decide, by decide, by decide⟩

/-- C10: `cosine_similarity` is total on zero-norm inputs — whenever either
argument has zero Euclidean norm (in particular for an all-zero embedding,
whose norm is zero) it returns `0.0` via the guard instead of dividing by
zero. -/
theorem cosine_similarity_total (a b : Emb) (hd : a.length = b.length)
    (h0 : (∃ n, a = List.replicate n 0) ∨ vnorm a = 0 ∨ vnorm b = 0) :
    cosineSimilarity a b = 0 := by
  have hz : vnorm a = 0 ∨ vnorm b = 0 := by
    rcases h0 with ⟨n, rfl⟩ | h | h
    · left
      unfold vnorm
      refine Real.sqrt_eq_zero'.mpr (le_of_eq (List.sum_eq_zero ?_))
      intro x hx
      obtain ⟨y, hy, rfl⟩ := List.mem_map.mp hx
      rw [List.eq_of_mem_replicate hy]
      norm_num
    · exact Or.inl h
    · exact Or.inr h
  unfold cosineSimilarity
  rw [if_pos hz]

/-- C10 witness: comparing the all-zero 3-dimensional embedding against
`[1, 2, 3]` scores 0. -/
theorem cosine_similarity_total_witness :
    cosineSimilarity (List.replicate 3 0) [1, 2, 3] = 0 :=
  cosine_similarity_total (List.replicate 3 0) [1, 2, 3] (by simp) (Or.inl ⟨3, rfl⟩)

/-- The fixed intent list has no duplicates. -/
theorem INTENTS_nodup : INTENTS.Nodup := by decide

/-- `predict_intent` on an empty ranking. -/
theorem predictIntent_of_ranked_nil (st : Store) (e : Emb) (h : rankedScores st e = []) :
    predictIntent st e = ("UNKNOWN", 0, INTENTS.take 3) := by
  unfold predictIntent
  rw [h]

/-- `predict_intent` on a non-empty ranking. -/
theorem predictIntent_of_ranked_cons (st : Store) (e : Emb) (bi : String) (bs : ℝ)
    (rest : List (String × ℝ)) (h : rankedScores st e = (bi, bs) :: rest) :
    predictIntent st e =
      (bi,
       calibrateConfidence bs (bs - secondScoreOf rest) (st.db bi).length,
       (rest.take 3).map Prod.fst) := by
  unfold predictIntent
  rw [h]

/-- The ranking is sorted descending by combined score. -/
theorem rankedScores_sorted (st : Store) (e : Emb) :
    (rankedScores st e).Sorted descScore :=
  List.sorted_insertionSort descScore (intentScores st e)

/-- The calibrated confidence is clamped into `[0, 1]`. -/
theorem calibrateConfidence_mem_unit (r m : ℝ) (n : ℕ) :
    0 ≤ calibrateConfidence r m n ∧ calibrateConfidence r m n ≤ 1 := by
  unfold calibrateConfidence
  exact ⟨le_max_left 0 _, max_le (by norm_num) (min_le_left 1 _)⟩

/-- The key list of the per-intent scores is the filtered intent list. -/
theorem intentScores_keys (st : Store) (e : Emb) :
    (intentScores st e).map Prod.fst =
      INTENTS.filter (fun i => MIN_SAMPLES_FOR_PREDICTION ≤ (st.db i).length) := by
  unfold intentScores
  rw [List.map_map]
  exact List.map_id _

/-- The ranking is a permutation of the per-intent scores. -/
theorem rankedScores_perm (st : Store) (e : Emb) :
    (rankedScores st e).Perm (intentScores st e) :=
  List.perm_insertionSort descScore _

/-- The ranking has pairwise distinct intent keys. -/
theorem rankedScores_keys_nodup (st : Store) (e : Emb) :
    ((rankedScores st e).map Prod.fst).Nodup := by
  have hsc : ((intentScores st e).map Prod.fst).Nodup := by
    rw [intentScores_keys]
    exact (List.filter_sublist _).nodup INTENTS_nodup
  exact (((rankedScores_perm st e).map Prod.fst).nodup_iff).mpr hsc

/-- C2: for every store state and query embedding, `predict_intent` returns a
confidence in `[0, 1]` and an intent among the ten fixed labels or `UNKNOWN`;
when no intent reaches `MIN_SAMPLES_FOR_PREDICTION` (2) samples it returns
exactly `("UNKNOWN", 0.0, INTENTS[:3])`; and otherwise the winner is the head
of a descending-sorted permutation of the per-intent combined scores, the
alternatives are the next up to three intents of that ranking, and the winner
never appears among the alternatives. -/
theorem predict_intent_spec (st : Store) (e : Emb) :
    (0 ≤ (predictIntent st e).2.1 ∧ (predictIntent st e).2.1 ≤ 1) ∧
    ((predictIntent st e).1 ∈ INTENTS ∨ (predictIntent st e).1 = "UNKNOWN") ∧
    ((∀ i ∈ INTENTS, (st.db i).length < MIN_SAMPLES_FOR_PREDICTION) →
      predictIntent st e = ("UNKNOWN", 0, INTENTS.take 3)) ∧
    (rankedScores st e).Perm (intentScores st e) ∧
    (rankedScores st e).Sorted descScore ∧
    (rankedScores st e ≠ [] →
      (predictIntent st e).1 = (rankedScores st e).headI.1 ∧
      (predictIntent st e).2.2 = (((rankedScores st e).drop 1).take 3).map Prod.fst ∧
      (predictIntent st e).1 ∉ (predictIntent st e).2.2) := by
  have hempty : (∀ i ∈ INTENTS, (st.db i).length < MIN_SAMPLES_FOR_PREDICTION) →
      predictIntent st e = ("UNKNOWN", 0, INTENTS.take 3) := by
    intro hall
    apply predictIntent_of_ranked_nil
    unfold rankedScores
    have hsc : intentScores st e = [] := by
      unfold intentScores
      rw [List.filter_eq_nil_iff.mpr (fun i hi => by simpa using not_le.mpr (hall i hi))]
      rfl
    rw [hsc]
    rfl
  refine ⟨?_, ?_, hempty, rankedScores_perm st e, rankedScores_sorted st e, ?_⟩
  · rcases hr : rankedScores st e with - | ⟨⟨bi, bs⟩, rest⟩
    · rw [predictIntent_of_ranked_nil st e hr]; norm_num
    · rw [predictIntent_of_ranked_cons st e bi bs rest hr]
      exact calibrateConfidence_mem_unit _ _ _
  · rcases hr : rankedScores st e with - | ⟨⟨bi, bs⟩, rest⟩
    · rw [predictIntent_of_ranked_nil st e hr]; right; rfl
    · rw [predictIntent_of_ranked_cons st e bi bs rest hr]
      left
      have h1 : (bi, bs) ∈ rankedScores st e := by rw [hr]; exact List.mem_cons_self _ _
      have h2 : (bi, bs) ∈ intentScores st e := (rankedScores_perm st e).mem_iff.mp h1
      have h3 : bi ∈ (intentScores st e).map Prod.fst :=
        List.mem_map.mpr ⟨(bi, bs), h2, rfl⟩
      rw [intentScores_keys] at h3
      exact List.mem_of_mem_filter h3
  · intro hne
    rcases hr : rankedScores st e with - | ⟨⟨bi, bs⟩, rest⟩
    · exact absurd hr hne
    · have hp := predictIntent_of_ranked_cons st e bi bs rest hr
      have hnd := rankedScores_keys_nodup st e
      rw [hr] at hnd
      simp only [List.map_cons, List.nodup_cons] at hnd
      refine ⟨by rw [hp]; rfl, by rw [hp]; rfl, ?_⟩
      rw [hp]
      intro hin
      simp only at hin
      obtain ⟨p, hpmem, hpeq⟩ := List.mem_map.mp hin
      exact hnd.1 (List.mem_map.mpr ⟨p, List.take_subset 3 rest hpmem, hpeq⟩)

/-- C2 witness: on the initial (empty) store, where no intent has two
samples, classifying any embedding (here `[1, 2]`) answers exactly
`("UNKNOWN", 0.0, [HELP, WATER, YES])`. -/
theorem predict_intent_spec_witness :
    predictIntent initStore [1, 2] = ("UNKNOWN", 0, ["HELP", "WATER", "YES"]) :=
  (predict_intent_spec initStore [1, 2]).2.2.1 (fun i _ => by simp [initStore]; decide)

end VerbaOS
